import Mathlib

/-!
Shallow embedding of the scheduling core of the QueGroomingSanrue front-desk
application (source: src/app.js, class DataStore and the workflow methods of
class PetGroomingApp).

Modelling conventions:
- JavaScript numbers that hold millisecond timestamps are modelled as Nat
  (ISO timestamp strings are only ever tested for truthiness or converted
  back to Date for subtraction, so a Nat timestamp is faithful).
- null / undefined object fields are modelled as Option; an update object
  (a patch merged with an object spread) tracks field presence with an
  outer Option, and present-but-null with a nested Option where the source
  can actually store null in that field.
- The empty string and null are conflated to none for appointment time and
  similar fields: the source only ever tests those fields for truthiness,
  under which the two are indistinguishable.
- JavaScript Array.prototype.sort on strings compares UTF-16 code units;
  for the strings appearing here (Thai, in the BMP) this is code-point
  order, modelled by a lexicographic comparison of the character lists.
- The remote Firestore writes are modelled by Bool oracles (one per write)
  telling whether the awaited write succeeds; the in-memory mirror update
  that the source performs after a successful write is applied exactly when
  the corresponding oracle is true.
-/

/-! ## JavaScript-semantics helpers -/

/-- JS string split on a single separator character (faithful to
String.prototype.split with a one-character separator for the
well-formed inputs used by the app). -/
def splitCharAux (sep : Char) : List Char → List Char → List (List Char)
  | [], acc => [acc.reverse]
  | c :: cs, acc =>
    if c == sep then acc.reverse :: splitCharAux sep cs []
    else splitCharAux sep cs (c :: acc)

/-- Split a string on a separator character, as a list of strings. -/
def splitOnChar (sep : Char) (s : String) : List String :=
  (splitCharAux sep s.data []).map String.mk

/-- Digit accumulation for Number('...') on digit strings. -/
def parseNatAux : List Char → Nat → Nat
  | [], acc => acc
  | c :: cs, acc => parseNatAux cs (acc * 10 + (c.toNat - 48))

/-- Number('...') on the well-formed digit strings used by the app
(Number of the empty string is 0, matching JS). -/
def parseNum (s : String) : Nat := parseNatAux s.data 0

/-- Minutes since midnight of an HH:mm string:
split(':').map(Number) and hours*60+minutes. -/
def parseTime (s : String) : Nat :=
  match splitOnChar ':' s with
  | h :: m :: _ => parseNum h * 60 + parseNum m
  | [h] => parseNum h * 60
  | [] => 0

/-- The HOUR component only of an HH:mm string: the source sometimes
destructures just the first element of split(':'). -/
def parseHour (s : String) : Nat :=
  parseNum ((splitOnChar ':' s).headD "")

/-- String(n).padStart(2, '0') for the numbers produced by the app. -/
def pad2 (n : Nat) : String :=
  if n < 10 then "0" ++ toString n else toString n

/-- Render minutes-since-midnight as an HH:mm string without wrapping. -/
def formatTime (m : Nat) : String :=
  pad2 (m / 60) ++ ":" ++ pad2 (m % 60)

/-- JS x || d for a possibly-missing number field (0 is falsy). -/
def jsOrNat (o : Option Nat) (d : Nat) : Nat :=
  match o with
  | some v => if v == 0 then d else v
  | none => d

/-- JS v || null for a possibly-missing string field: the empty string
and a missing value both collapse to null. -/
def jsStrTruthy (p : Option (Option String)) : Option String :=
  match p with
  | some (some s) => if s == "" then none else some s
  | some none => none
  | none => none

/-- JS a || d for a possibly-missing string with a string default. -/
def jsOrStr (p : Option String) (d : String) : String :=
  match p with
  | some s => if s == "" then d else s
  | none => d

/-- Right-biased choice: the override wins when present
(the semantics of a later field in an object spread). -/
def pjoin {α : Type} (a b : Option α) : Option α :=
  match b with
  | some v => some v
  | none => a

/-- Take an overriding value when the patch carries the field. -/
def ow {α : Type} (p : Option α) (q : α) : α :=
  match p with
  | some v => v
  | none => q

/-- Take an overriding nullable value when the patch carries the field. -/
def oow {α : Type} (p : Option (Option α)) (q : Option α) : Option α :=
  match p with
  | some v => v
  | none => q

/-- Patch presence writes some value over a nullable field. -/
def ows {α : Type} (p : Option α) (q : Option α) : Option α :=
  match p with
  | some v => some v
  | none => q

/-- JS Math.round: floor(x + 1/2). -/
def jsRound (x : ℚ) : ℤ := ⌊x + 1 / 2⌋

/-- Replace the first list element satisfying the predicate (the source
updates this.data.queue at the first index found by findIndex). -/
def updateFirst {α : Type} (p : α → Bool) (f : α → α) : List α → List α
  | [] => []
  | x :: xs => if p x then f x :: xs else x :: updateFirst p f xs

/-! ## String ordering (JS default sort comparator) -/

/-- Lexicographic comparison of character lists by code point, the order
used by the JS default sort comparator on BMP strings. -/
def chLe : List Char → List Char → Bool
  | [], _ => true
  | _ :: _, [] => false
  | c :: cs, d :: ds =>
    if c < d then true
    else if d < c then false
    else chLe cs ds

/-- The string order used when the source sorts service-name arrays. -/
def jsLe (a b : String) : Prop := chLe a.data b.data = true

instance : DecidableRel jsLe := fun a b => by
  unfold jsLe
  infer_instance

/-- serviceTypes.sort(): the JS in-place default sort, as the sorted list. -/
def jsSort (l : List String) : List String := List.insertionSort jsLe l

/-- The sorted comma-joined combo key used by the duration table. -/
def comboKey (l : List String) : String := String.intercalate "," l

/-! ## Data model (src/app.js DataStore.data) -/

/-- Working hours of one groomer in a daily schedule. -/
structure WorkingHours where
  start : String
  close : String
deriving DecidableEq

/-- A groomer record (only the fields the scheduling core reads). -/
structure Groomer where
  id : String
  name : String
  isActive : Bool
deriving DecidableEq

/-- One groomer line of a daily schedule document. -/
structure SchedGroomer where
  groomerId : String
  name : String
  workingHours : WorkingHours
deriving DecidableEq

/-- A daily schedule document, keyed by date. -/
structure DailySchedule where
  date : String
  groomers : List SchedGroomer
  totalCapacity : Nat
deriving DecidableEq

/-- One weight tier of the cat pricing table. -/
structure WeightTier where
  max : ℚ
  short : Nat
  long : Nat
deriving DecidableEq

/-- The cat pricing configuration. -/
structure CatPricing where
  weightTiers : List WeightTier
  addons : List (String × Nat)
deriving DecidableEq

/-- The settings document (service durations may be missing entirely,
matching the safety check in calculateServiceDuration). -/
structure Settings where
  priceList : List (String × Nat)
  serviceDurations : Option (List (String × Nat))
  defaultWorkingHours : WorkingHours
  catPricing : CatPricing
deriving DecidableEq

/-- A pet record (only the fields the scheduling core touches). -/
structure Pet where
  id : String
  weight : Option ℚ
deriving DecidableEq

/-- An in-memory queue entry, the central entity. Timestamps are
millisecond epoch values; nullable fields are Option. -/
structure QueueEntry where
  id : String
  queueNumber : Nat
  date : String
  appointmentTime : Option String
  estimatedEndTime : Option String
  duration : Option Nat
  customerId : Option String
  petId : Option String
  groomerId : Option String
  assignedGroomerId : Option String
  serviceType : List String
  status : String
  bookingAt : Option Nat
  depositAmount : Option Nat
  depositMethod : Option String
  depositAt : Option Nat
  checkInWeight : Option ℚ
  checkInNotes : Option String
  checkInAt : Option Nat
  completionImages : List String
  completedAt : Option Nat
  notes : Option String
  bookerName : Option String
  priority : Bool
  isTransportIncluded : Bool
  marketingSource : Option String
  health : Option String
  ticks : Option String
  createdAt : Option Nat
deriving DecidableEq

/-- An update object passed to addQueue or updateQueue: each field is
wrapped in Option to record whether the JS object carries the field at
all; fields the source can set to null carry a nested Option. -/
structure QueuePatch where
  id : Option String := none
  queueNumber : Option Nat := none
  date : Option String := none
  appointmentTime : Option (Option String) := none
  estimatedEndTime : Option (Option String) := none
  duration : Option Nat := none
  customerId : Option String := none
  petId : Option String := none
  groomerId : Option (Option String) := none
  assignedGroomerId : Option (Option String) := none
  serviceType : Option (List String) := none
  status : Option String := none
  bookingAt : Option Nat := none
  depositAmount : Option Nat := none
  depositMethod : Option (Option String) := none
  depositAt : Option Nat := none
  checkInWeight : Option ℚ := none
  checkInNotes : Option String := none
  checkInAt : Option Nat := none
  completionImages : Option (List String) := none
  completedAt : Option Nat := none
  notes : Option String := none
  bookerName : Option String := none
  priority : Option Bool := none
  isTransportIncluded : Option Bool := none
  marketingSource : Option String := none
  health : Option String := none
  ticks : Option String := none
  createdAt : Option Nat := none
deriving DecidableEq

/-- Object spread of a patch over an entry: present patch fields win. -/
def mergePatch (q : QueueEntry) (p : QueuePatch) : QueueEntry :=
  { id := ow p.id q.id
    queueNumber := ow p.queueNumber q.queueNumber
    date := ow p.date q.date
    appointmentTime := oow p.appointmentTime q.appointmentTime
    estimatedEndTime := oow p.estimatedEndTime q.estimatedEndTime
    duration := ows p.duration q.duration
    customerId := ows p.customerId q.customerId
    petId := ows p.petId q.petId
    groomerId := oow p.groomerId q.groomerId
    assignedGroomerId := oow p.assignedGroomerId q.assignedGroomerId
    serviceType := ow p.serviceType q.serviceType
    status := ow p.status q.status
    bookingAt := ows p.bookingAt q.bookingAt
    depositAmount := ows p.depositAmount q.depositAmount
    depositMethod := oow p.depositMethod q.depositMethod
    depositAt := ows p.depositAt q.depositAt
    checkInWeight := ows p.checkInWeight q.checkInWeight
    checkInNotes := ows p.checkInNotes q.checkInNotes
    checkInAt := ows p.checkInAt q.checkInAt
    completionImages := ow p.completionImages q.completionImages
    completedAt := ows p.completedAt q.completedAt
    notes := ows p.notes q.notes
    bookerName := ows p.bookerName q.bookerName
    priority := ow p.priority q.priority
    isTransportIncluded := ow p.isTransportIncluded q.isTransportIncluded
    marketingSource := ows p.marketingSource q.marketingSource
    health := ows p.health q.health
    ticks := ows p.ticks q.ticks
    createdAt := ows p.createdAt q.createdAt }

/-- Object spread of a patch over a patch (finalUpdates in updateQueue):
fields present on the right win. -/
def patchMerge (p1 p2 : QueuePatch) : QueuePatch :=
  { id := pjoin p1.id p2.id
    queueNumber := pjoin p1.queueNumber p2.queueNumber
    date := pjoin p1.date p2.date
    appointmentTime := pjoin p1.appointmentTime p2.appointmentTime
    estimatedEndTime := pjoin p1.estimatedEndTime p2.estimatedEndTime
    duration := pjoin p1.duration p2.duration
    customerId := pjoin p1.customerId p2.customerId
    petId := pjoin p1.petId p2.petId
    groomerId := pjoin p1.groomerId p2.groomerId
    assignedGroomerId := pjoin p1.assignedGroomerId p2.assignedGroomerId
    serviceType := pjoin p1.serviceType p2.serviceType
    status := pjoin p1.status p2.status
    bookingAt := pjoin p1.bookingAt p2.bookingAt
    depositAmount := pjoin p1.depositAmount p2.depositAmount
    depositMethod := pjoin p1.depositMethod p2.depositMethod
    depositAt := pjoin p1.depositAt p2.depositAt
    checkInWeight := pjoin p1.checkInWeight p2.checkInWeight
    checkInNotes := pjoin p1.checkInNotes p2.checkInNotes
    checkInAt := pjoin p1.checkInAt p2.checkInAt
    completionImages := pjoin p1.completionImages p2.completionImages
    completedAt := pjoin p1.completedAt p2.completedAt
    notes := pjoin p1.notes p2.notes
    bookerName := pjoin p1.bookerName p2.bookerName
    priority := pjoin p1.priority p2.priority
    isTransportIncluded := pjoin p1.isTransportIncluded p2.isTransportIncluded
    marketingSource := pjoin p1.marketingSource p2.marketingSource
    health := pjoin p1.health p2.health
    ticks := pjoin p1.ticks p2.ticks
    createdAt := pjoin p1.createdAt p2.createdAt }

/-- A derived service-history record (createServiceRecord's object). -/
structure ServiceRecord where
  queueId : String
  customerId : Option String
  petId : Option String
  groomerId : Option String
  date : String
  status : String
  servicesPerformed : List String
  bookingAt : Option Nat
  depositAt : Option Nat
  checkInAt : Option Nat
  completedAt : Nat
  duration : ℤ
  appointmentTime : Option String
  estimatedEndTime : Option String
  checkInWeight : Option ℚ
  checkInNotes : String
  completionImages : List String
  price : Nat
  notes : String
  createdAt : Nat
deriving DecidableEq

/-- The in-memory mirror this.data of the remote collections. -/
structure StoreData where
  pets : List Pet
  groomers : List Groomer
  queue : List QueueEntry
  serviceRecords : List ServiceRecord
  dailySchedules : List DailySchedule
  settings : Settings
deriving DecidableEq

/-- Association-list read of a JS object used as a map. -/
def lookupTbl (tbl : List (String × Nat)) (k : String) : Option Nat :=
  (tbl.find? (fun kv => kv.1 == k)).map (fun kv => kv.2)

/-! ## Duration engine (DataStore.calculateServiceDuration) -/

/-- The hard-coded fallback duration table the source uses when
settings.serviceDurations is missing. -/
def defaultDurations : List (String × Nat) :=
  [("อาบน้ำ", 60), ("ตัดขน", 90), ("ตัดเล็บ", 30), ("ทำสปา", 45), ("ดูแลพิเศษ", 60)]

/-- DataStore.calculateServiceDuration on a present array. Returns the
computed minutes TOGETHER with the final contents of the caller's array:
serviceTypes.sort() sorts the argument array in place, so the second
component records that mutation. -/
def calculateServiceDuration (s : Settings) (serviceTypes : List String) :
    Nat × List String :=
  if serviceTypes.isEmpty then (60, serviceTypes)
  else
    match s.serviceDurations with
    | none =>
      ((serviceTypes.map (fun sv => jsOrNat (lookupTbl defaultDurations sv) 60)).sum,
        serviceTypes)
    | some durations =>
      let sorted := jsSort serviceTypes
      let servicesKey := comboKey sorted
      match lookupTbl durations servicesKey with
      | some v =>
        if v ≠ 0 then (v, sorted)
        else ((sorted.map (fun sv => jsOrNat (lookupTbl durations sv) 60)).sum, sorted)
      | none =>
        ((sorted.map (fun sv => jsOrNat (lookupTbl durations sv) 60)).sum, sorted)

/-- calculateServiceDuration when the argument may be absent entirely
(the !serviceTypes branch of the source). -/
def calculateServiceDurationOpt (s : Settings) :
    Option (List String) → Nat × Option (List String)
  | none => (60, none)
  | some l =>
    let r := calculateServiceDuration s l
    (r.1, some r.2)

/-! ## Pricing engine -/

/-- DataStore.calculatePrice: sum of listed prices, 0 for unknown. -/
def calculatePrice (s : Settings) (services : List String) : Nat :=
  (services.map (fun sv => (lookupTbl s.priceList sv).getD 0)).sum

/-- tiers.find(t => weight <= t.max) || tiers[tiers.length - 1]:
none models the TypeError the source would hit on an empty tier list. -/
def resolveTier (tiers : List WeightTier) (weight : ℚ) : Option WeightTier :=
  match tiers.find? (fun t => decide (weight ≤ t.max)) with
  | some t => some t
  | none => tiers.getLast?

/-- The add-on contribution of one non-bathing service in
calculateCatPrice: cat addon price if truthy, else general price. -/
def catAddonPrice (s : Settings) (sv : String) : Nat :=
  match lookupTbl s.catPricing.addons sv with
  | some v => if v == 0 then (lookupTbl s.priceList sv).getD 0 else v
  | none => (lookupTbl s.priceList sv).getD 0

/-- The total add-on contribution of the selected services. -/
def catAddonsTotal (s : Settings) (services : List String) : Nat :=
  (services.map (fun sv => if sv == "อาบน้ำ" then 0 else catAddonPrice s sv)).sum

/-- DataStore.calculateCatPrice; none models the exception thrown when
the bathing tier cannot be resolved (empty weightTiers). -/
def calculateCatPrice (s : Settings) (services : List String) (weight : ℚ)
    (isLongHair : Bool) : Option Nat :=
  if services.contains "อาบน้ำ" then
    match resolveTier s.catPricing.weightTiers weight with
    | none => none
    | some t =>
      some ((if isLongHair then t.long else t.short) + catAddonsTotal s services)
  else
    some (catAddonsTotal s services)

/-! ## Simple store queries -/

/-- DataStore.getActiveGroomers. -/
def getActiveGroomers (st : StoreData) : List Groomer :=
  st.groomers.filter (fun g => g.isActive)

/-- DataStore.getQueueByDate. -/
def getQueueByDate (st : StoreData) (dateString : String) : List QueueEntry :=
  st.queue.filter (fun q => q.date == dateString)

/-- DataStore.getDailySchedule. -/
def getDailySchedule (st : StoreData) (date : String) : Option DailySchedule :=
  st.dailySchedules.find? (fun ds => ds.date == date)

/-! ## Availability checker (DataStore.getAvailableGroomersForSlot) -/

/-- The result of getAvailableGroomersForSlot: active Groomer objects in
the no-schedule fallback, scheduled-groomer lines otherwise. -/
inductive AvailResult
  | unscheduled (gs : List Groomer)
  | scheduled (gs : List SchedGroomer)
deriving DecidableEq

/-- Number of available groomers in either shape of result. -/
def availCount : AvailResult → Nat
  | AvailResult.unscheduled gs => gs.length
  | AvailResult.scheduled gs => gs.length

/-- Availability test of one scheduled groomer for the candidate interval
[startMinutes, endMinutes). Working hours are reduced to their HOUR
component times 60, exactly as the source destructures only the first
element of workingHours.start.split(':'). -/
def groomerFree (queuesOnDate : List QueueEntry) (startMinutes endMinutes : Nat)
    (g : SchedGroomer) : Bool :=
  let workStartMin := parseHour g.workingHours.start * 60
  let workEndMin := parseHour g.workingHours.close * 60
  if startMinutes < workStartMin || endMinutes > workEndMin then false
  else
    (queuesOnDate.filter (fun q =>
        q.assignedGroomerId == some g.groomerId && q.status != "cancelled")).all
      (fun q =>
        match q.appointmentTime with
        | none => true
        | some t =>
          let qStartMinutes := parseTime t
          let qEndMinutes := qStartMinutes + jsOrNat q.duration 60
          decide (endMinutes ≤ qStartMinutes) || decide (startMinutes ≥ qEndMinutes))

/-- DataStore.getAvailableGroomersForSlot. -/
def getAvailableGroomersForSlot (st : StoreData) (date startTime : String)
    (duration : Nat) : AvailResult :=
  match getDailySchedule st date with
  | none => AvailResult.unscheduled (getActiveGroomers st)
  | some schedule =>
    let startMinutes := parseTime startTime
    let endMinutes := startMinutes + duration
    let queuesOnDate := getQueueByDate st date
    AvailResult.scheduled
      (schedule.groomers.filter (groomerFree queuesOnDate startMinutes endMinutes))

/-! ## Slot finder (DataStore.findAvailableTimeSlots) -/

/-- DataStore.calculateEndTime: minutes arithmetic without wrapping. -/
def calculateEndTime (startTime : String) (duration : Nat) : String :=
  let startMinutes := parseTime startTime
  let endMinutes := startMinutes + duration
  pad2 (endMinutes / 60) ++ ":" ++ pad2 (endMinutes % 60)

/-- One emitted slot of findAvailableTimeSlots. -/
structure Slot where
  time : String
  endTime : String
  availableGroomers : Nat
  groomers : AvailResult
deriving DecidableEq

/-- The 30-minute greedy scan loop of findAvailableTimeSlots. -/
def findSlotsGo (st : StoreData) (date : String) (duration winEnd maxSlots : Nat)
    (cur : Nat) (acc : List Slot) : List Slot :=
  if _h : cur + duration ≤ winEnd ∧ acc.length < maxSlots then
    let timeStr := formatTime cur
    let avail := getAvailableGroomersForSlot st date timeStr duration
    let acc' :=
      if availCount avail > 0 then
        acc ++ [{ time := timeStr
                  endTime := calculateEndTime timeStr duration
                  availableGroomers := availCount avail
                  groomers := avail }]
      else acc
    findSlotsGo st date duration winEnd maxSlots (cur + 30) acc'
  else acc
termination_by winEnd + 30 - cur
decreasing_by omega

/-- The working window findAvailableTimeSlots scans: first scheduled
groomer's hours if a schedule exists, else the shop default; only the
HOUR components are read. -/
def slotWindow (st : StoreData) (date : String) : WorkingHours :=
  match getDailySchedule st date with
  | some schedule =>
    match schedule.groomers with
    | g :: _ => g.workingHours
    | [] => st.settings.defaultWorkingHours
  | none => st.settings.defaultWorkingHours

/-- DataStore.findAvailableTimeSlots. -/
def findAvailableTimeSlots (st : StoreData) (date : String)
    (serviceTypes : List String) (maxSlots : Nat) : List Slot :=
  let duration := (calculateServiceDuration st.settings serviceTypes).1
  let workHours := slotWindow st date
  let startHour := parseHour workHours.start
  let endHour := parseHour workHours.close
  findSlotsGo st date duration (endHour * 60) maxSlots (startHour * 60) []

/-! ## Service record deriver (DataStore.createServiceRecord) -/

/-- Build the service record object from the merged queue entry, with
now substituted for a missing check-in or completion timestamp. -/
def buildServiceRecord (s : Settings) (now : Nat) (q : QueueEntry) : ServiceRecord :=
  let checkInTime := q.checkInAt.getD now
  let endTime := q.completedAt.getD now
  { queueId := q.id
    customerId := q.customerId
    petId := q.petId
    groomerId := q.groomerId
    date := q.date
    status := "completed"
    servicesPerformed := q.serviceType
    bookingAt := q.bookingAt
    depositAt := q.depositAt
    checkInAt := q.checkInAt
    completedAt := q.completedAt.getD now
    duration := jsRound (((endTime : ℚ) - (checkInTime : ℚ)) / 60000)
    appointmentTime := q.appointmentTime
    estimatedEndTime := q.estimatedEndTime
    checkInWeight := q.checkInWeight
    checkInNotes := q.checkInNotes.getD ""
    completionImages := q.completionImages
    price := calculatePrice s q.serviceType
    notes := q.notes.getD ""
    createdAt := now }

/-- DataStore.createServiceRecord: builds the record and fires an
independent remote write; the in-memory serviceRecords mirror gains the
record exactly when that write succeeds (recordOk). -/
def createServiceRecord (st : StoreData) (now : Nat) (recordOk : Bool)
    (q : QueueEntry) : ServiceRecord × StoreData :=
  let r := buildServiceRecord st.settings now q
  (r, if recordOk then { st with serviceRecords := st.serviceRecords ++ [r] } else st)

/-! ## Queue workflow (DataStore.updateQueue / DataStore.addQueue) -/

/-- The timestampUpdates object of updateQueue: set the stage timestamp
for the target status only when the stored one is unset. The three if
statements of the source are exclusive because updates.status is a
single value. -/
def timestampUpdates (q : QueueEntry) (updates : QueuePatch) (now : Nat) : QueuePatch :=
  if updates.status == some "deposit" && q.depositAt == none then
    { depositAt := some now }
  else if updates.status == some "check-in" && q.checkInAt == none then
    { checkInAt := some now }
  else if updates.status == some "completed" && q.completedAt == none then
    { completedAt := some now }
  else {}

/-- DataStore.updateQueue. qOk is the outcome of the awaited queue-document
write; recordOk the outcome of the independent service-record write that
createServiceRecord fires BEFORE the queue write is awaited. Returns the
new in-memory store and the value updateQueue returns (none on failure or
unknown id). The remote pet-weight write touches no in-memory state and is
therefore not represented. -/
def updateQueue (st : StoreData) (now : Nat) (qOk recordOk : Bool) (id : String)
    (updates : QueuePatch) : StoreData × Option QueueEntry :=
  match st.queue.find? (fun q => q.id == id) with
  | none => (st, none)
  | some q =>
    let tsU := timestampUpdates q updates now
    let st1 :=
      if updates.status == some "completed" && q.completedAt == none then
        (createServiceRecord st now recordOk (mergePatch (mergePatch q updates) tsU)).2
      else st
    let finalUpdates := patchMerge updates tsU
    if qOk then
      ({ st1 with
          queue := updateFirst (fun e => e.id == id)
            (fun e => mergePatch e finalUpdates) st1.queue },
        some (mergePatch q finalUpdates))
    else (st1, none)

/-- The HH:mm string addQueue derives for estimatedEndTime: a Date is
built from the appointment hours and minutes, duration minutes are added
and getHours/getMinutes are read back, so the hours wrap modulo 24. -/
def addQueueEndTime (appt : String) (duration : Nat) : String :=
  let total := parseTime appt + duration
  pad2 (total % 1440 / 60) ++ ":" ++ pad2 (total % 60)

/-- DataStore.addQueue. today is the fallback date string, newId the id
the remote store would assign, qOk the outcome of the awaited write.
calculateServiceDuration sorts queueItem.serviceType in place, so the
spread of queueItem afterwards carries the sorted list. -/
def addQueue (st : StoreData) (today : String) (now : Nat) (qOk : Bool)
    (newId : String) (queueItem : QueuePatch) : StoreData × Option QueueEntry :=
  let selectedDate := jsOrStr queueItem.date today
  let queuesOnDate := st.queue.filter (fun q => q.date == selectedDate)
  let queueNumber := queuesOnDate.length + 1
  let sres := calculateServiceDurationOpt st.settings queueItem.serviceType
  let duration := sres.1
  let queueItem2 := { queueItem with serviceType := sres.2 }
  let estimatedEndTime : Option String :=
    match jsStrTruthy queueItem.appointmentTime with
    | some t => some (addQueueEndTime t duration)
    | none => none
  let base : QueueEntry :=
    { id := ""
      queueNumber := queueNumber
      date := selectedDate
      appointmentTime := jsStrTruthy queueItem.appointmentTime
      estimatedEndTime := estimatedEndTime
      duration := some duration
      customerId := none
      petId := none
      groomerId := none
      assignedGroomerId := jsStrTruthy queueItem.assignedGroomerId
      serviceType := []
      status := "booking"
      bookingAt := some now
      depositAmount := none
      depositMethod := none
      depositAt := none
      checkInWeight := none
      checkInNotes := some ""
      checkInAt := none
      completionImages := []
      completedAt := none
      notes := none
      bookerName := none
      priority := false
      isTransportIncluded := false
      marketingSource := none
      health := none
      ticks := none
      createdAt := none }
  let newQueue := { mergePatch base queueItem2 with createdAt := some now }
  if qOk then
    let createdQueue := { newQueue with id := ow queueItem2.id newId }
    ({ st with queue := st.queue ++ [createdQueue] }, some createdQueue)
  else (st, none)

/-! ## UI save path (PetGroomingApp.saveQueue) -/

/-- The booking form state saveQueue reads from the DOM. An empty string
in a select is modelled as none for the optional groomer and time slot. -/
structure QueueForm where
  customerId : String
  petId : String
  groomerId : Option String
  serviceTypes : List String
  addons : List String
  date : String
  timeSlot : Option String
  priority : Bool
  transportIncluded : Bool
  marketingSource : String
  bookerName : String
  health : String
  ticks : String
  notes : String
deriving DecidableEq

/-- The queueData object saveQueue builds: duration from MAIN services
only (the sort mutation leaves them sorted before allServices is built),
then the full stored service list is mains plus add-ons. -/
def saveQueueData (s : Settings) (form : QueueForm) (now : Nat) : QueuePatch :=
  let dres := calculateServiceDuration s form.serviceTypes
  let duration := dres.1
  let allServices := dres.2 ++ form.addons
  let endTime : Option String :=
    match form.timeSlot with
    | some t => some (calculateEndTime t duration)
    | none => none
  { customerId := some form.customerId
    petId := some form.petId
    groomerId := some form.groomerId
    assignedGroomerId := some form.groomerId
    serviceType := some allServices
    date := some form.date
    bookingAt := some now
    status := some "booking"
    priority := some form.priority
    isTransportIncluded := some form.transportIncluded
    marketingSource := some form.marketingSource
    notes := some form.notes
    health := some form.health
    ticks := some form.ticks
    bookerName := some (jsOrStr (some form.bookerName) "-")
    appointmentTime := some form.timeSlot
    estimatedEndTime := some endTime
    duration := some duration }

/-- The update object of the edit branch: queueData with the bookingAt
and status fields deleted. -/
def saveQueueEditPatch (s : Settings) (form : QueueForm) (now : Nat) : QueuePatch :=
  { saveQueueData s form now with bookingAt := none, status := none }

/-- The edit branch of saveQueue, validations included: on a validation
failure nothing happens; otherwise updateQueue is called with the patch. -/
def saveQueueEdit (st : StoreData) (form : QueueForm) (now : Nat)
    (editingQueueId : String) (qOk recordOk : Bool) : StoreData × Option QueueEntry :=
  let allServices :=
    (calculateServiceDuration st.settings form.serviceTypes).2 ++ form.addons
  if form.customerId == "" || form.petId == "" || allServices.isEmpty then (st, none)
  else if form.date == "" then (st, none)
  else updateQueue st now qOk recordOk editingQueueId (saveQueueEditPatch st.settings form now)

/-! ## The default settings document (DataStore.getDefaultSettings) -/

/-- The cat pricing table of getDefaultSettings. -/
def defaultCatPricing : CatPricing :=
  { weightTiers :=
      [ { max := 2, short := 300, long := 400 }
      , { max := 7 / 2, short := 350, long := 450 }
      , { max := 5, short := 400, long := 500 }
      , { max := 7, short := 500, long := 600 }
      , { max := 10, short := 600, long := 700 }
      , { max := 999, short := 700, long := 800 } ]
    addons :=
      [ ("ตัดขน-ปัตตาเลี่ยน", 150), ("ตัดขน-กรรไกร", 250), ("ตัดเฉพาะจุด", 50)
      , ("แปรงฟัน", 50), ("เชื้อรา", 80), ("ทรีตเมนต์", 50), ("ขจัดคราบมัน", 250)
      , ("หยดเห็บหมัด", 50), ("สางสังกะตัง", 50), ("เครื่องเป่าขน", 50) ] }

/-- The settings document shipped by getDefaultSettings (price list
abridged to the entries with nonzero prices plus a zero-priced one;
the duration table is the full current table of the source). -/
def defaultSettings : Settings :=
  { priceList := [("อาบน้ำ", 0), ("อาบ Set C", 0), ("ฝากเลี้ยง", 0)]
    serviceDurations := some
      [ ("อาบน้ำ", 60), ("อาบ Set C", 60), ("อาบประกวด", 60)
      , ("อาบน้ำ-ตัดขน ด้วยกรรไกร", 120), ("อาบน้ำ-ตัดขน ด้วยปัตตาเลี่ยน", 120)
      , ("อาบน้ำ พร้อมทำสปา", 90), ("หมาใหญ่", 60), ("ฝากเลี้ยง", 0), ("อื่นๆ", 30) ]
    defaultWorkingHours := { start := "09:00", close := "18:00" }
    catPricing := defaultCatPricing }

/-! ## Concrete fixtures for witnesses and counterexamples -/

/-- A minimal settings document with a one-entry duration table. -/
def cexSettings : Settings :=
  { priceList := []
    serviceDurations := some [("a", 10)]
    defaultWorkingHours := { start := "09:00", close := "18:00" }
    catPricing := { weightTiers := [], addons := [] } }

/-- A settings document whose duration table is missing entirely. -/
def noTableSettings : Settings :=
  { priceList := []
    serviceDurations := none
    defaultWorkingHours := { start := "09:00", close := "18:00" }
    catPricing := { weightTiers := [], addons := [] } }

/-- A queue entry with every nullable field unset. -/
def emptyEntry : QueueEntry :=
  { id := ""
    queueNumber := 0
    date := ""
    appointmentTime := none
    estimatedEndTime := none
    duration := none
    customerId := none
    petId := none
    groomerId := none
    assignedGroomerId := none
    serviceType := []
    status := "booking"
    bookingAt := none
    depositAmount := none
    depositMethod := none
    depositAt := none
    checkInWeight := none
    checkInNotes := none
    checkInAt := none
    completionImages := []
    completedAt := none
    notes := none
    bookerName := none
    priority := false
    isTransportIncluded := false
    marketingSource := none
    health := none
    ticks := none
    createdAt := none }

/-- A store with all collections empty and the default settings. -/
def emptyStore : StoreData :=
  { pets := []
    groomers := []
    queue := []
    serviceRecords := []
    dailySchedules := []
    settings := defaultSettings }

/-- A scheduled groomer whose working hours start on a half hour. -/
def halfPastGroomer : SchedGroomer :=
  { groomerId := "g1"
    name := "A"
    workingHours := { start := "09:30", close := "17:00" } }

/-- A store whose daily schedule for 2025-01-01 holds only
halfPastGroomer, with no bookings. -/
def halfPastStore : StoreData :=
  { emptyStore with
      dailySchedules :=
        [{ date := "2025-01-01", groomers := [halfPastGroomer], totalCapacity := 1 }] }

/-- A store with one active and one inactive groomer and no schedules. -/
def noScheduleStore : StoreData :=
  { emptyStore with
      groomers :=
        [ { id := "g1", name := "A", isActive := true }
        , { id := "g2", name := "B", isActive := false } ] }

/-- A store holding one entry whose deposit timestamp is already set. -/
def depositedStore : StoreData :=
  { emptyStore with
      queue := [{ emptyEntry with id := "q1", status := "deposit", depositAt := some 5 }] }

/-- A status-only update object targeting the deposit stage. -/
def depositPatch : QueuePatch := { status := some "deposit" }

/-- A store holding one checked-in entry that is not yet completed. -/
def checkedInStore : StoreData :=
  { emptyStore with
      queue := [{ emptyEntry with id := "q1", status := "check-in", checkInAt := some 0 }] }

/-- A status-only update object targeting the completed stage. -/
def completedPatch : QueuePatch := { status := some "completed" }

/-- A booking form filled with the minimum valid data. -/
def sampleForm : QueueForm :=
  { customerId := "c1"
    petId := "p1"
    groomerId := none
    serviceTypes := ["อาบน้ำ"]
    addons := []
    date := "2025-01-01"
    timeSlot := some "10:00"
    priority := false
    transportIncluded := false
    marketingSource := ""
    bookerName := ""
    health := ""
    ticks := ""
    notes := "" }

/-- A store holding one mid-workflow entry for the edit path. -/
def editStore : StoreData :=
  { emptyStore with
      queue := [{ emptyEntry with id := "q1", status := "deposit", bookingAt := some 7 }] }

/-- An addQueue input that itself carries a queueNumber. -/
def numberedPatch : QueuePatch :=
  { queueNumber := some 99, date := some "2025-01-01" }

/-- The slot object findAvailableTimeSlots builds at a cursor value. -/
def slotAt (st : StoreData) (date : String) (duration m : Nat) : Slot :=
  { time := formatTime m
    endTime := calculateEndTime (formatTime m) duration
    availableGroomers := availCount (getAvailableGroomersForSlot st date (formatTime m) duration)
    groomers := getAvailableGroomersForSlot st date (formatTime m) duration }

/-! ## Helper lemmas: the string order -/

theorem chLe_refl : ∀ a : List Char, chLe a a = true := by
  intro a
  induction a with
  | nil => rfl
  | cons c cs ih => simp [chLe, lt_irrefl, ih]

theorem chLe_total : ∀ a b : List Char, chLe a b = true ∨ chLe b a = true := by
  intro a
  induction a with
  | nil => intro b; left; rfl
  | cons c cs ih =>
    intro b
    cases b with
    | nil => right; rfl
    | cons d ds =>
      rcases lt_trichotomy c d with h | h | h
      · left; simp [chLe, h]
      · subst h
        rcases ih ds with h2 | h2
        · left; simp [chLe, lt_irrefl, h2]
        · right; simp [chLe, lt_irrefl, h2]
      · right; simp [chLe, h]

theorem chLe_trans : ∀ a b c : List Char,
    chLe a b = true → chLe b c = true → chLe a c = true := by
  intro a
  induction a with
  | nil => intro b c _ _; rfl
  | cons x xs ih =>
    intro b c h1 h2
    cases b with
    | nil => simp [chLe] at h1
    | cons y ys =>
      cases c with
      | nil => simp [chLe] at h2
      | cons z zs =>
        rcases lt_trichotomy x y with hxy | hxy | hxy
        · rcases lt_trichotomy y z with hyz | hyz | hyz
          · simp [chLe, lt_trans hxy hyz]
          · subst hyz; simp [chLe, hxy]
          · simp [chLe, hyz, asymm hyz] at h2
        · subst hxy
          rcases lt_trichotomy x z with hyz | hyz | hyz
          · simp [chLe, hyz]
          · subst hyz
            simp only [chLe, lt_irrefl, if_false] at h1 h2 ⊢
            exact ih ys zs h1 h2
          · simp [chLe, hyz, asymm hyz] at h2
        · simp [chLe, hxy, asymm hxy] at h1

theorem chLe_antisymm : ∀ a b : List Char,
    chLe a b = true → chLe b a = true → a = b := by
  intro a
  induction a with
  | nil =>
    intro b _ h2
    cases b with
    | nil => rfl
    | cons d ds => simp [chLe] at h2
  | cons x xs ih =>
    intro b h1 h2
    cases b with
    | nil => simp [chLe] at h1
    | cons y ys =>
      rcases lt_trichotomy x y with hxy | hxy | hxy
      · simp [chLe, hxy, asymm hxy] at h2
      · subst hxy
        simp only [chLe, lt_irrefl, if_false] at h1 h2
        rw [ih ys h1 h2]
      · simp [chLe, hxy, asymm hxy] at h1

instance : IsTotal String jsLe := ⟨fun a b => chLe_total a.data b.data⟩

instance : IsTrans String jsLe := ⟨fun a b c h1 h2 => chLe_trans a.data b.data c.data h1 h2⟩

instance : IsAntisymm String jsLe :=
  ⟨fun a b h1 h2 => by
    have h := chLe_antisymm a.data b.data h1 h2
    cases a
    cases b
    exact congrArg String.mk h⟩

instance : IsRefl String jsLe := ⟨fun a => chLe_refl a.data⟩

theorem jsSort_perm (l : List String) : (jsSort l).Perm l :=
  List.perm_insertionSort jsLe l

theorem jsSort_sorted (l : List String) : (jsSort l).Sorted jsLe :=
  List.sorted_insertionSort jsLe l

theorem jsSort_eq_of_perm {l₁ l₂ : List String} (h : l₁.Perm l₂) :
    jsSort l₁ = jsSort l₂ :=
  List.eq_of_perm_of_sorted
    ((jsSort_perm l₁).trans (h.trans (jsSort_perm l₂).symm))
    (jsSort_sorted l₁) (jsSort_sorted l₂)

/-! ## Helper lemmas: updateFirst and find? -/

theorem updateFirst_decomp {α : Type} (p : α → Bool) (f : α → α) :
    ∀ (l : List α) (a : α), l.find? p = some a →
      ∃ l₁ l₂, l = l₁ ++ a :: l₂ ∧ (∀ y ∈ l₁, p y = false) ∧
        updateFirst p f l = l₁ ++ f a :: l₂ := by
  intro l
  induction l with
  | nil => intro a h; simp [List.find?] at h
  | cons x xs ih =>
    intro a h
    by_cases hx : p x = true
    · rw [List.find?_cons_of_pos xs hx] at h
      cases h
      exact ⟨[], xs, by simp, by simp, by simp [updateFirst, hx]⟩
    · have hx' : p x = false := by
        cases hpx : p x
        · rfl
        · exact absurd hpx hx
      rw [List.find?_cons_of_neg xs (by simp [hx'])] at h
      obtain ⟨l₁, l₂, he, hall, hu⟩ := ih a h
      refine ⟨x :: l₁, l₂, by simp [he], ?_, ?_⟩
      · intro y hy
        rcases List.mem_cons.mp hy with rfl | hy2
        · exact hx'
        · exact hall y hy2
      · simp [updateFirst, hx', hu]

theorem find?_append_cons {α : Type} (p : α → Bool) (a : α) (l₂ : List α) :
    ∀ l₁ : List α, (∀ y ∈ l₁, p y = false) → p a = true →
      (l₁ ++ a :: l₂).find? p = some a := by
  intro l₁
  induction l₁ with
  | nil => intro _ h2; simpa using List.find?_cons_of_pos l₂ h2
  | cons x xs ih =>
    intro h1 h2
    have hx : p x = false := h1 x (List.mem_cons_self x xs)
    rw [List.cons_append, List.find?_cons_of_neg (xs ++ a :: l₂) (by simp [hx])]
    exact ih (fun y hy => h1 y (List.mem_cons_of_mem x hy)) h2

/-! ## Helper lemmas: tier resolution -/

theorem resolveTier_isSome (tiers : List WeightTier) (w : ℚ) (h : tiers ≠ []) :
    (resolveTier tiers w).isSome = true := by
  unfold resolveTier
  cases hf : tiers.find? (fun t => decide (w ≤ t.max)) with
  | some t => rfl
  | none =>
    simpa [Option.isSome] using List.getLast?_isSome.mpr h

/-! ## C3: duration engine value -/

/-- C3 (amended): calculateServiceDuration returns 60 for an absent or
empty list; with a duration table present, a combo key with a nonzero
value wins outright, and otherwise the result is the sum of the
individual durations where an unknown service (or one with a falsy 0
duration) contributes 60; with the table missing, each service
contributes its hard-coded default, or 60 when unknown. -/
theorem calculateServiceDuration_spec (s : Settings) (l : List String) :
    (calculateServiceDurationOpt s none).1 = 60 ∧
    (calculateServiceDuration s []).1 = 60 ∧
    (∀ tbl, l ≠ [] → s.serviceDurations = some tbl →
      (∀ v, lookupTbl tbl (comboKey (jsSort l)) = some v → v ≠ 0 →
        (calculateServiceDuration s l).1 = v) ∧
      ((lookupTbl tbl (comboKey (jsSort l)) = none ∨
          lookupTbl tbl (comboKey (jsSort l)) = some 0) →
        (calculateServiceDuration s l).1 =
          ((jsSort l).map (fun sv => jsOrNat (lookupTbl tbl sv) 60)).sum)) ∧
    (l ≠ [] → s.serviceDurations = none →
      (calculateServiceDuration s l).1 =
        (l.map (fun sv => jsOrNat (lookupTbl defaultDurations sv) 60)).sum) := by
  refine ⟨rfl, rfl, ?_, ?_⟩
  · intro tbl hl htbl
    have hne : l.isEmpty = false := by simpa [List.isEmpty_iff] using hl
    constructor
    · intro v hv hv0
      unfold calculateServiceDuration
      rw [if_neg (by simp [hne]), htbl]
      simp [hv, hv0]
    · intro hv
      unfold calculateServiceDuration
      rw [if_neg (by simp [hne]), htbl]
      rcases hv with hv | hv
      · simp only [hv]
      · simp only [hv]
        simp
  · intro hl htbl
    have hne : l.isEmpty = false := by simpa [List.isEmpty_iff] using hl
    unfold calculateServiceDuration
    rw [if_neg (by simp [hne]), htbl]

/-- C3 counterexample: with the table present, an unknown service name
contributes 60 (not 0, as claimed); with the whole table missing, a
known service contributes its hard-coded default (here 90), not 60. -/
theorem calculateServiceDuration_unknown_contributes_sixty :
    (calculateServiceDuration cexSettings ["b"]).1 = 60 ∧
    ¬ (calculateServiceDuration cexSettings ["b"]).1 = 0 ∧
    (calculateServiceDuration noTableSettings ["ตัดขน"]).1 = 90 ∧
    ¬ (calculateServiceDuration noTableSettings ["ตัดขน"]).1 = 60 := by decide

/-- C3 witness: the amended theorem applied at a concrete input. -/
theorem calculateServiceDuration_spec_witness :
    (calculateServiceDuration cexSettings ["b"]).1 =
      ((jsSort ["b"]).map (fun sv => jsOrNat (lookupTbl [("a", 10)] sv) 60)).sum := by
  have h := (calculateServiceDuration_spec cexSettings ["b"]).2.2.1
    [("a", 10)] (by decide) rfl
  exact h.2 (Or.inl (by decide))

/-! ## C4: duration engine is order independent but mutates its input -/

/-- C4 counterexample: serviceTypes.sort() sorts the caller's array in
place, so calculateServiceDuration is not free of side effects: the
input list is left sorted, not unchanged. -/
theorem calculateServiceDuration_sorts_in_place :
    (calculateServiceDuration cexSettings ["b", "a"]).2 = ["a", "b"] ∧
    ¬ (calculateServiceDuration cexSettings ["b", "a"]).2 = ["b", "a"] := by decide

/-- C4 (amended): the returned duration is deterministic and order
independent, the same for any two permutations of the selected services
(the in-place sort of the input is the one side effect). -/
theorem calculateServiceDuration_order_independent (s : Settings)
    (l₁ l₂ : List String) (h : l₁.Perm l₂) :
    (calculateServiceDuration s l₁).1 = (calculateServiceDuration s l₂).1 := by
  by_cases h1 : l₁ = []
  · subst h1
    have h2 : l₂ = [] := h.symm.eq_nil
    subst h2
    rfl
  · have h2 : l₂ ≠ [] := by
      intro he
      subst he
      exact h1 h.eq_nil
    have e1 : l₁.isEmpty = false := by simpa [List.isEmpty_iff] using h1
    have e2 : l₂.isEmpty = false := by simpa [List.isEmpty_iff] using h2
    unfold calculateServiceDuration
    rw [if_neg (by simp [e1]), if_neg (by simp [e2])]
    cases htbl : s.serviceDurations with
    | none =>
      simpa using (h.map (fun sv => jsOrNat (lookupTbl defaultDurations sv) 60)).sum_eq
    | some tbl =>
      have hs : jsSort l₁ = jsSort l₂ := jsSort_eq_of_perm h
      simp only [hs]

/-- C4 witness: the amended theorem applied at a concrete permutation. -/
theorem calculateServiceDuration_order_independent_witness :
    (["b", "a"] : List String).Perm ["a", "b"] ∧
    (calculateServiceDuration cexSettings ["b", "a"]).1 =
      (calculateServiceDuration cexSettings ["a", "b"]).1 :=
  ⟨List.Perm.swap "a" "b" [],
    calculateServiceDuration_order_independent cexSettings ["b", "a"] ["a", "b"]
      (List.Perm.swap "a" "b" [])⟩

/-! ## C9: cat pricing tier resolution -/

/-- C9: with a nonempty tier list, calculateCatPrice never fails; when
bathing is selected resolveTier yields the first tier in table order
whose max is at least the weight when one exists, and the catch-all last
tier for a weight exceeding every max, and the result adds that tier's
long- or short-hair price to the add-on total. -/
theorem calculateCatPrice_spec (s : Settings) (services : List String) (w : ℚ)
    (isLongHair : Bool) (h : s.catPricing.weightTiers ≠ []) :
    (calculateCatPrice s services w isLongHair).isSome = true ∧
    (∀ t, resolveTier s.catPricing.weightTiers w = some t →
      ((∃ u ∈ s.catPricing.weightTiers, w ≤ u.max) →
        s.catPricing.weightTiers.find? (fun u => decide (w ≤ u.max)) = some t ∧
          w ≤ t.max) ∧
      ((∀ u ∈ s.catPricing.weightTiers, ¬ w ≤ u.max) →
        s.catPricing.weightTiers.getLast? = some t)) ∧
    (services.contains "อาบน้ำ" = true →
      ∃ t, resolveTier s.catPricing.weightTiers w = some t ∧
        calculateCatPrice s services w isLongHair =
          some ((if isLongHair then t.long else t.short) + catAddonsTotal s services)) := by
  have hsome := resolveTier_isSome s.catPricing.weightTiers w h
  obtain ⟨t0, ht0⟩ := Option.isSome_iff_exists.mp hsome
  refine ⟨?_, ?_, ?_⟩
  · unfold calculateCatPrice
    cases hc : services.contains "อาบน้ำ" with
    | false => simp [hc]
    | true => simp [hc, ht0]
  · intro t ht
    constructor
    · rintro ⟨u, hu, hw⟩
      cases hf : s.catPricing.weightTiers.find? (fun u => decide (w ≤ u.max)) with
      | none =>
        exact absurd (by simpa using hw)
          (by simpa using List.find?_eq_none.mp hf u hu)
      | some t2 =>
        unfold resolveTier at ht
        rw [hf] at ht
        cases ht
        have hp := List.find?_some hf
        exact ⟨rfl, of_decide_eq_true hp⟩
    · intro hall
      have hf : s.catPricing.weightTiers.find? (fun u => decide (w ≤ u.max)) = none :=
        List.find?_eq_none.mpr (fun u hu => by simpa using hall u hu)
      unfold resolveTier at ht
      rw [hf] at ht
      exact ht
  · intro hc
    refine ⟨t0, ht0, ?_⟩
    unfold calculateCatPrice
    simp only [hc, if_true, ht0]

/-- C9 witness: the claim's own scenario, a 4 kg long-haired cat against
the default tiers, resolves to the max-5 tier's long price of 500. -/
theorem calculateCatPrice_spec_witness :
    (calculateCatPrice defaultSettings ["อาบน้ำ"] 4 true).isSome = true ∧
    calculateCatPrice defaultSettings ["อาบน้ำ"] 4 true = some 500 := by
  have h := calculateCatPrice_spec defaultSettings ["อาบน้ำ"] 4 true (by decide)
  refine ⟨h.1, ?_⟩
  obtain ⟨t, ht, he⟩ := h.2.2 (by decide)
  have ht' : resolveTier defaultSettings.catPricing.weightTiers 4 =
      some { max := 5, short := 400, long := 500 } := by
    show resolveTier defaultCatPricing.weightTiers 4 = _
    unfold resolveTier defaultCatPricing
    rw [List.find?_cons_of_neg _ (by simp only [decide_eq_true_eq]; norm_num),
      List.find?_cons_of_neg _ (by simp only [decide_eq_true_eq]; norm_num),
      List.find?_cons_of_pos _ (by simp only [decide_eq_true_eq]; norm_num)]
  rw [ht'] at ht
  cases ht
  rw [he]
  decide

/-! ## Helper lemmas: availability predicate -/

theorem groomerFree_iff (Q : List QueueEntry) (s e : Nat) (g : SchedGroomer) :
    groomerFree Q s e g = true ↔
      (parseHour g.workingHours.start * 60 ≤ s ∧
        e ≤ parseHour g.workingHours.close * 60) ∧
      (∀ q ∈ Q, q.assignedGroomerId = some g.groomerId → q.status ≠ "cancelled" →
        ∀ t, q.appointmentTime = some t →
          e ≤ parseTime t ∨ parseTime t + jsOrNat q.duration 60 ≤ s) := by
  unfold groomerFree
  by_cases hcond : (s < parseHour g.workingHours.start * 60 ||
      e > parseHour g.workingHours.close * 60) = true
  · rw [if_pos hcond]
    simp only [Bool.or_eq_true, decide_eq_true_eq] at hcond
    simp only [Bool.false_eq_true, false_iff, not_and]
    intro hw
    omega
  · rw [if_neg hcond]
    simp only [Bool.or_eq_true, decide_eq_true_eq, not_or, not_lt] at hcond
    rw [List.all_eq_true]
    constructor
    · intro hall
      refine ⟨⟨hcond.1, by omega⟩, ?_⟩
      intro q hq ha hs t htq
      have hmem : q ∈ Q.filter (fun q =>
          q.assignedGroomerId == some g.groomerId && q.status != "cancelled") := by
        rw [List.mem_filter]
        exact ⟨hq, by simp [ha, hs]⟩
      have hthis := hall q hmem
      rw [htq] at hthis
      simp only [Bool.or_eq_true, decide_eq_true_eq] at hthis
      omega
    · rintro ⟨-, hall⟩ q hq
      rw [List.mem_filter] at hq
      obtain ⟨hqQ, hb⟩ := hq
      simp only [Bool.and_eq_true, beq_iff_eq, bne_iff_ne] at hb
      cases htq : q.appointmentTime with
      | none => simp
      | some t =>
        have hd := hall q hqQ hb.1 hb.2 t htq
        simp only [Bool.or_eq_true, decide_eq_true_eq]
        omega

/-! ## C5: availability checker -/

/-- C5 counterexample: a groomer whose working hours start at 09:30 is
returned for the candidate interval 09:00-09:30, which lies entirely
before the working-hours interval: the source reads only the HOUR of the
schedule's working times, so the claimed inclusion test fails. -/
theorem getAvailableGroomersForSlot_ignores_minutes :
    getAvailableGroomersForSlot halfPastStore "2025-01-01" "09:00" 30 =
      AvailResult.scheduled [halfPastGroomer] ∧
    parseTime "09:00" + 30 ≤ parseTime halfPastGroomer.workingHours.start := by decide

/-- C5 (amended): with no schedule for the date the result is exactly the
active groomers; with a schedule, a scheduled groomer is returned iff the
candidate interval lies inside the groomer's working hours REDUCED TO
WHOLE HOURS (the minute components are ignored) and does not overlap any
non-cancelled booking of that groomer on the date under the half-open
overlap test, bookings without an appointment time never conflicting. -/
theorem getAvailableGroomersForSlot_spec (st : StoreData) (date startTime : String)
    (duration : Nat) :
    (getDailySchedule st date = none →
      getAvailableGroomersForSlot st date startTime duration =
        AvailResult.unscheduled (getActiveGroomers st)) ∧
    (∀ sched, getDailySchedule st date = some sched →
      getAvailableGroomersForSlot st date startTime duration =
        AvailResult.scheduled (sched.groomers.filter
          (groomerFree (getQueueByDate st date) (parseTime startTime)
            (parseTime startTime + duration))) ∧
      ∀ g, g ∈ sched.groomers.filter
            (groomerFree (getQueueByDate st date) (parseTime startTime)
              (parseTime startTime + duration)) ↔
          g ∈ sched.groomers ∧
          (parseHour g.workingHours.start * 60 ≤ parseTime startTime ∧
            parseTime startTime + duration ≤ parseHour g.workingHours.close * 60) ∧
          (∀ q ∈ getQueueByDate st date,
            q.assignedGroomerId = some g.groomerId → q.status ≠ "cancelled" →
            ∀ t, q.appointmentTime = some t →
              ¬ (parseTime startTime < parseTime t + jsOrNat q.duration 60 ∧
                parseTime t < parseTime startTime + duration))) := by
  constructor
  · intro h
    unfold getAvailableGroomersForSlot
    rw [h]
  · intro sched hs
    constructor
    · unfold getAvailableGroomersForSlot
      rw [hs]
    · intro g
      rw [List.mem_filter, groomerFree_iff]
      constructor
      · rintro ⟨hg, hw, hov⟩
        refine ⟨hg, hw, ?_⟩
        intro q hq ha hst t ht
        have hd := hov q hq ha hst t ht
        omega
      · rintro ⟨hg, hw, hov⟩
        refine ⟨hg, hw, ?_⟩
        intro q hq ha hst t ht
        have hd := hov q hq ha hst t ht
        omega

/-- C5 witness: the amended theorem applied to a store without a daily
schedule returns exactly the active groomers. -/
theorem getAvailableGroomersForSlot_spec_witness :
    getAvailableGroomersForSlot noScheduleStore "2025-01-02" "10:00" 60 =
      AvailResult.unscheduled (getActiveGroomers noScheduleStore) :=
  (getAvailableGroomersForSlot_spec noScheduleStore "2025-01-02" "10:00" 60).1 (by decide)

/-! ## C6: slot finder -/

theorem findSlotsGo_spec (st : StoreData) (date : String) (dur winEnd maxSlots base : Nat) :
    ∀ n j ks, winEnd + 30 - (base + 30 * j) = n →
      List.Sorted (· < ·) ks → (∀ k ∈ ks, k < j) →
      (∀ k ∈ ks, base + 30 * k + dur ≤ winEnd ∧
        0 < availCount (getAvailableGroomersForSlot st date
          (formatTime (base + 30 * k)) dur)) →
      ∃ ks2, List.Sorted (· < ·) ks2 ∧
        findSlotsGo st date dur winEnd maxSlots (base + 30 * j)
            (ks.map (fun k => slotAt st date dur (base + 30 * k))) =
          ks2.map (fun k => slotAt st date dur (base + 30 * k)) ∧
        (∀ k ∈ ks2, base + 30 * k + dur ≤ winEnd ∧
          0 < availCount (getAvailableGroomersForSlot st date
            (formatTime (base + 30 * k)) dur)) ∧
        ks2.length ≤ max ks.length maxSlots := by
  intro n
  induction n using Nat.strong_induction_on with
  | _ n ih =>
    intro j ks hn hsort hlt hprops
    rw [findSlotsGo]
    by_cases hcond : base + 30 * j + dur ≤ winEnd ∧
        (ks.map (fun k => slotAt st date dur (base + 30 * k))).length < maxSlots
    · rw [dif_pos hcond]
      have hcur : base + 30 * j ≤ winEnd := by omega
      have hstep : base + 30 * (j + 1) = base + 30 * j + 30 := by ring
      have hnext : winEnd + 30 - (base + 30 * (j + 1)) < n := by omega
      by_cases havail : 0 < availCount (getAvailableGroomersForSlot st date
          (formatTime (base + 30 * j)) dur)
      · have hsort2 : List.Sorted (· < ·) (ks ++ [j]) :=
          List.pairwise_append.mpr ⟨hsort, List.sorted_singleton j, fun a ha b hb => by
            rw [List.mem_singleton] at hb
            subst hb
            exact hlt a ha⟩
        have hlt2 : ∀ k ∈ ks ++ [j], k < j + 1 := by
          intro k hk
          rcases List.mem_append.mp hk with hk | hk
          · exact Nat.lt_succ_of_lt (hlt k hk)
          · rw [List.mem_singleton] at hk
            omega
        have hprops2 : ∀ k ∈ ks ++ [j], base + 30 * k + dur ≤ winEnd ∧
            0 < availCount (getAvailableGroomersForSlot st date
              (formatTime (base + 30 * k)) dur) := by
          intro k hk
          rcases List.mem_append.mp hk with hk | hk
          · exact hprops k hk
          · rw [List.mem_singleton] at hk
            subst hk
            exact ⟨hcond.1, havail⟩
        obtain ⟨ks2, hs2, he2, hp2, hl2⟩ := ih _ hnext (j + 1) (ks ++ [j]) rfl hsort2 hlt2 hprops2
        refine ⟨ks2, hs2, ?_, hp2, ?_⟩
        · rw [hstep] at he2
          simp only [List.map_append, List.map_cons, List.map_nil] at he2
          simp only [if_pos havail]
          exact he2
        · have hlen : ks.length < maxSlots := by
            simpa using hcond.2
          have : max (ks ++ [j]).length maxSlots = maxSlots := by
            rw [List.length_append, List.length_singleton]
            exact Nat.max_eq_right (by omega)
          rw [this] at hl2
          exact le_trans hl2 (le_max_right _ _)
      · obtain ⟨ks2, hs2, he2, hp2, hl2⟩ := ih _ hnext (j + 1) ks rfl hsort
          (fun k hk => Nat.lt_succ_of_lt (hlt k hk)) hprops
        refine ⟨ks2, hs2, ?_, hp2, hl2⟩
        rw [hstep] at he2
        simp only [if_neg havail]
        exact he2
    · rw [dif_neg hcond]
      exact ⟨ks, hsort, rfl, hprops, le_max_left _ _⟩

/-- C6: findAvailableTimeSlots returns at most maxSlots slots, taken at
strictly increasing 30-minute steps from the working-window start, each
fitting before the window end with its whole duration and each having at
least one available groomer. -/
theorem findAvailableTimeSlots_spec (st : StoreData) (date : String)
    (serviceTypes : List String) (maxSlots : Nat) :
    (findAvailableTimeSlots st date serviceTypes maxSlots).length ≤ maxSlots ∧
    ∃ ks : List Nat, List.Sorted (· < ·) ks ∧
      findAvailableTimeSlots st date serviceTypes maxSlots =
        ks.map (fun k => slotAt st date (calculateServiceDuration st.settings serviceTypes).1
          (parseHour (slotWindow st date).start * 60 + 30 * k)) ∧
      ∀ k ∈ ks,
        parseHour (slotWindow st date).start * 60 + 30 * k +
            (calculateServiceDuration st.settings serviceTypes).1 ≤
          parseHour (slotWindow st date).close * 60 ∧
        0 < availCount (getAvailableGroomersForSlot st date
          (formatTime (parseHour (slotWindow st date).start * 60 + 30 * k))
          (calculateServiceDuration st.settings serviceTypes).1) := by
  obtain ⟨ks2, hsort, heq, hprops, hlen⟩ :=
    findSlotsGo_spec st date (calculateServiceDuration st.settings serviceTypes).1
      (parseHour (slotWindow st date).close * 60) maxSlots
      (parseHour (slotWindow st date).start * 60) _ 0 [] rfl
      (List.sorted_nil) (by simp) (by simp)
  simp only [Nat.mul_zero, Nat.add_zero, List.map_nil] at heq
  have hmain : findAvailableTimeSlots st date serviceTypes maxSlots =
      ks2.map (fun k => slotAt st date (calculateServiceDuration st.settings serviceTypes).1
        (parseHour (slotWindow st date).start * 60 + 30 * k)) := by
    unfold findAvailableTimeSlots
    exact heq
  constructor
  · rw [hmain, List.length_map]
    simpa using hlen
  · exact ⟨ks2, hsort, hmain, hprops⟩

/-- C6 witness: the theorem applied at a concrete store and date. -/
theorem findAvailableTimeSlots_spec_witness :
    (findAvailableTimeSlots emptyStore "2025-01-01" [] 10).length ≤ 10 ∧
    ∃ ks : List Nat, List.Sorted (· < ·) ks ∧
      findAvailableTimeSlots emptyStore "2025-01-01" [] 10 =
        ks.map (fun k => slotAt emptyStore "2025-01-01"
          (calculateServiceDuration emptyStore.settings []).1
          (parseHour (slotWindow emptyStore "2025-01-01").start * 60 + 30 * k)) ∧
      ∀ k ∈ ks,
        parseHour (slotWindow emptyStore "2025-01-01").start * 60 + 30 * k +
            (calculateServiceDuration emptyStore.settings []).1 ≤
          parseHour (slotWindow emptyStore "2025-01-01").close * 60 ∧
        0 < availCount (getAvailableGroomersForSlot emptyStore "2025-01-01"
          (formatTime (parseHour (slotWindow emptyStore "2025-01-01").start * 60 + 30 * k))
          (calculateServiceDuration emptyStore.settings []).1) :=
  findAvailableTimeSlots_spec emptyStore "2025-01-01" [] 10

/-! ## Helper lemmas: updateQueue shape -/

theorem updateQueue_not_found (st : StoreData) (now : Nat) (qOk rOk : Bool)
    (id : String) (updates : QueuePatch)
    (hf : st.queue.find? (fun q => q.id == id) = none) :
    updateQueue st now qOk rOk id updates = (st, none) := by
  unfold updateQueue
  rw [hf]

theorem updateQueue_found_parts (st : StoreData) (now : Nat) (qOk rOk : Bool)
    (id : String) (updates : QueuePatch) (q0 : QueueEntry)
    (hf : st.queue.find? (fun q => q.id == id) = some q0) :
    (updateQueue st now qOk rOk id updates).1.queue =
      (if qOk = true then
        updateFirst (fun e => e.id == id)
          (fun e => mergePatch e (patchMerge updates (timestampUpdates q0 updates now)))
          st.queue
      else st.queue) ∧
    (updateQueue st now qOk rOk id updates).1.pets = st.pets ∧
    (updateQueue st now qOk rOk id updates).1.serviceRecords =
      (if (updates.status == some "completed" && q0.completedAt == none) && rOk then
        st.serviceRecords ++
          [buildServiceRecord st.settings now
            (mergePatch (mergePatch q0 updates) (timestampUpdates q0 updates now))]
      else st.serviceRecords) ∧
    (updateQueue st now qOk rOk id updates).2 =
      (if qOk = true then
        some (mergePatch q0 (patchMerge updates (timestampUpdates q0 updates now)))
      else none) := by
  unfold updateQueue createServiceRecord
  rw [hf]
  by_cases hcc : (updates.status == some "completed" && q0.completedAt == none) = true <;>
    cases qOk <;> cases rOk <;>
    simp [hcc]

/-! ## C1: stage timestamps are idempotent -/

/-- C1: a status-transition call to updateQueue (one whose update object
carries no stage-timestamp field of its own, as with every caller in the
app) never overwrites a stage timestamp that is already set, and writes
each stage timestamp only on the matching target status: every entry of
the resulting queue corresponds to a stored entry whose set stage
timestamps it preserves. -/
theorem updateQueue_preserves_stage_timestamps (st : StoreData) (now : Nat)
    (qOk rOk : Bool) (id : String) (updates : QueuePatch)
    (hd : updates.depositAt = none) (hc : updates.checkInAt = none)
    (hm : updates.completedAt = none) :
    ∀ e ∈ (updateQueue st now qOk rOk id updates).1.queue,
      ∃ q ∈ st.queue,
        ((q.depositAt ≠ none ∨ updates.status ≠ some "deposit") →
          e.depositAt = q.depositAt) ∧
        ((q.checkInAt ≠ none ∨ updates.status ≠ some "check-in") →
          e.checkInAt = q.checkInAt) ∧
        ((q.completedAt ≠ none ∨ updates.status ≠ some "completed") →
          e.completedAt = q.completedAt) := by
  intro e he
  cases hf : st.queue.find? (fun q => q.id == id) with
  | none =>
    rw [updateQueue_not_found st now qOk rOk id updates hf] at he
    exact ⟨e, he, fun _ => rfl, fun _ => rfl, fun _ => rfl⟩
  | some q0 =>
    rw [(updateQueue_found_parts st now qOk rOk id updates q0 hf).1] at he
    by_cases hOk : qOk = true
    · rw [if_pos hOk] at he
      obtain ⟨l₁, l₂, hdecomp, hall, hupd⟩ :=
        updateFirst_decomp (fun e => e.id == id)
          (fun e => mergePatch e (patchMerge updates (timestampUpdates q0 updates now)))
          st.queue q0 hf
      rw [hupd, List.mem_append, List.mem_cons] at he
      rcases he with he | he | he
      · have hmem : e ∈ st.queue := by
          rw [hdecomp]
          exact List.mem_append.mpr (Or.inl he)
        exact ⟨e, hmem, fun _ => rfl, fun _ => rfl, fun _ => rfl⟩
      · subst he
        have hmem : q0 ∈ st.queue := by
          rw [hdecomp]
          exact List.mem_append.mpr (Or.inr (List.mem_cons_self q0 l₂))
        refine ⟨q0, hmem, ?_, ?_, ?_⟩
        · intro hcase
          unfold timestampUpdates mergePatch patchMerge
          split_ifs with h1 h2 h3
          · simp only [Bool.and_eq_true, beq_iff_eq] at h1
            rcases hcase with hcase | hcase
            · exact absurd h1.2 hcase
            · exact absurd h1.1 hcase
          · simp [ows, pjoin, hd]
          · simp [ows, pjoin, hd]
          · simp [ows, pjoin, hd]
        · intro hcase
          unfold timestampUpdates mergePatch patchMerge
          split_ifs with h1 h2 h3
          · simp [ows, pjoin, hc]
          · simp only [Bool.and_eq_true, beq_iff_eq] at h2
            rcases hcase with hcase | hcase
            · exact absurd h2.2 hcase
            · exact absurd h2.1 hcase
          · simp [ows, pjoin, hc]
          · simp [ows, pjoin, hc]
        · intro hcase
          unfold timestampUpdates mergePatch patchMerge
          split_ifs with h1 h2 h3
          · simp [ows, pjoin, hm]
          · simp [ows, pjoin, hm]
          · simp only [Bool.and_eq_true, beq_iff_eq] at h3
            rcases hcase with hcase | hcase
            · exact absurd h3.2 hcase
            · exact absurd h3.1 hcase
          · simp [ows, pjoin, hm]
      · have hmem : e ∈ st.queue := by
          rw [hdecomp]
          exact List.mem_append.mpr (Or.inr (List.mem_cons.mpr (Or.inr he)))
        exact ⟨e, hmem, fun _ => rfl, fun _ => rfl, fun _ => rfl⟩
    · rw [if_neg hOk] at he
      exact ⟨e, he, fun _ => rfl, fun _ => rfl, fun _ => rfl⟩

/-- C1 witness: re-entering the deposit status on an entry whose deposit
timestamp is already set leaves that timestamp untouched. -/
theorem updateQueue_preserves_stage_timestamps_witness :
    depositPatch.depositAt = none ∧
    ((updateQueue depositedStore 99 true true "q1" depositPatch).1.queue.map
      (fun e => e.depositAt)) = [some 5] := by
  refine ⟨rfl, ?_⟩
  have hmem : ({ emptyEntry with id := "q1", status := "deposit", depositAt := some 5 } :
      QueueEntry) ∈ (updateQueue depositedStore 99 true true "q1" depositPatch).1.queue := by
    decide
  obtain ⟨q, hq, h1, -, -⟩ := updateQueue_preserves_stage_timestamps depositedStore 99
    true true "q1" depositPatch rfl rfl rfl _ hmem
  have hq' : q = { emptyEntry with id := "q1", status := "deposit", depositAt := some 5 } := by
    have : depositedStore.queue =
        [{ emptyEntry with id := "q1", status := "deposit", depositAt := some 5 }] := by decide
    rw [this, List.mem_singleton] at hq
    exact hq
  decide

/-! ## C2: completion creates exactly one service record -/

/-- C2: a successful updateQueue to status completed on an entry whose
completion timestamp is unset appends exactly one service record, whose
duration is round((completedAt - checkInAt)/60000) with now substituted
for a missing checkInAt and completedAt set to now; the stored entry then
carries completedAt, and any later update of an entry whose completedAt
is set (in particular a second completed transition) appends no record. -/
theorem updateQueue_completed_once (st : StoreData) (now : Nat) (id : String)
    (updates : QueuePatch) (q : QueueEntry)
    (hfind : st.queue.find? (fun e => e.id == id) = some q)
    (hq : q.completedAt = none)
    (hst : updates.status = some "completed")
    (hci : updates.checkInAt = none) (hco : updates.completedAt = none)
    (hid : updates.id = none) :
    (∃ r : ServiceRecord,
      (updateQueue st now true true id updates).1.serviceRecords =
        st.serviceRecords ++ [r] ∧
      r.duration = jsRound (((now : ℚ) - ((q.checkInAt.getD now : Nat) : ℚ)) / 60000) ∧
      r.completedAt = now) ∧
    (∃ q2, (updateQueue st now true true id updates).1.queue.find?
        (fun e => e.id == id) = some q2 ∧ q2.completedAt = some now) ∧
    (∀ (st2 : StoreData) (q2 : QueueEntry) (now2 : Nat) (b1 b2 : Bool) (u2 : QueuePatch),
      st2.queue.find? (fun e => e.id == id) = some q2 → q2.completedAt ≠ none →
      (updateQueue st2 now2 b1 b2 id u2).1.serviceRecords = st2.serviceRecords) := by
  have htsU : timestampUpdates q updates now = { completedAt := some now } := by
    unfold timestampUpdates
    rw [hst, hq]
    have e1 : ((some "completed" : Option String) == some "deposit") = false := by decide
    have e2 : ((some "completed" : Option String) == some "check-in") = false := by decide
    have e3 : ((some "completed" : Option String) == some "completed") = true := by decide
    simp [e1, e2, e3]
  have hcond : ((updates.status == some "completed" && q.completedAt == none) && true) = true := by
    rw [hst, hq]
    decide
  refine ⟨?_, ?_, ?_⟩
  · refine ⟨buildServiceRecord st.settings now
      (mergePatch (mergePatch q updates) (timestampUpdates q updates now)), ?_, ?_, ?_⟩
    · rw [(updateQueue_found_parts st now true true id updates q hfind).2.2.1, if_pos hcond]
    · simp [buildServiceRecord, htsU, mergePatch, ows, pjoin, hci]
    · simp [buildServiceRecord, htsU, mergePatch, ows, pjoin]
  · refine ⟨mergePatch q (patchMerge updates (timestampUpdates q updates now)), ?_, ?_⟩
    · rw [(updateQueue_found_parts st now true true id updates q hfind).1, if_pos rfl]
      obtain ⟨l₁, l₂, hdecomp, hall, hupd⟩ :=
        updateFirst_decomp (fun e => e.id == id)
          (fun e => mergePatch e (patchMerge updates (timestampUpdates q updates now)))
          st.queue q hfind
      rw [hupd]
      apply find?_append_cons _ _ _ _ hall
      have hpq := List.find?_some hfind
      have hidmerge : (mergePatch q (patchMerge updates (timestampUpdates q updates now))).id
          = q.id := by
        simp [mergePatch, patchMerge, ow, pjoin, htsU, hid]
      rw [hidmerge]
      exact hpq
    · simp [mergePatch, patchMerge, ows, pjoin, htsU, hco]
  · intro st2 q2 now2 b1 b2 u2 hf2 hne
    rw [(updateQueue_found_parts st2 now2 b1 b2 id u2 q2 hf2).2.2.1, if_neg]
    have hb : (q2.completedAt == none) = false := by
      cases hc2 : q2.completedAt with
      | none => exact absurd hc2 hne
      | some v => rfl
    simp [hb]

/-- C2 witness: completing a checked-in entry (check-in at 0 ms,
completion at 300000 ms) appends one record of duration 5 minutes. -/
theorem updateQueue_completed_once_witness :
    checkedInStore.queue.find? (fun e => e.id == "q1") =
      some { emptyEntry with id := "q1", status := "check-in", checkInAt := some 0 } ∧
    (updateQueue checkedInStore 300000 true true "q1" completedPatch).1.serviceRecords.length = 1 ∧
    ((updateQueue checkedInStore 300000 true true "q1" completedPatch).1.serviceRecords.map
      (fun r => r.duration)) = [5] := by
  refine ⟨by decide, ?_, ?_⟩ <;>
  · obtain ⟨⟨r, hr, hdur, -⟩, -, -⟩ := updateQueue_completed_once checkedInStore 300000 "q1"
      completedPatch { emptyEntry with id := "q1", status := "check-in", checkInAt := some 0 }
      (by decide) rfl rfl rfl rfl rfl
    have hr5 : r.duration = 5 := by
      rw [hdur]
      norm_num [jsRound]
    rw [hr]
    simp [hr5, checkedInStore, emptyStore]

/-! ## C7: failed remote writes and the in-memory mirror -/

/-- C7 counterexample: on a completed transition the service-record write
is fired before the queue write is awaited, so when the queue write fails
(the call returns null and the queue mirror is untouched) but the
independent record write succeeds, a service record IS added to the
in-memory serviceRecords mirror. -/
theorem updateQueue_failed_write_still_adds_record :
    (updateQueue checkedInStore 1000 false true "q1" completedPatch).2 = none ∧
    (updateQueue checkedInStore 1000 false true "q1" completedPatch).1.queue =
      checkedInStore.queue ∧
    (updateQueue checkedInStore 1000 false true "q1" completedPatch).1.serviceRecords.length = 1 ∧
    checkedInStore.serviceRecords.length = 0 := by
  refine ⟨?_, ?_, ?_, rfl⟩
  · rw [((updateQueue_found_parts checkedInStore 1000 false true "q1" completedPatch
      { emptyEntry with id := "q1", status := "check-in", checkInAt := some 0 }
      (by decide)).2.2.2), if_neg (by decide)]
  · rw [((updateQueue_found_parts checkedInStore 1000 false true "q1" completedPatch
      { emptyEntry with id := "q1", status := "check-in", checkInAt := some 0 }
      (by decide)).1), if_neg (by decide)]
  · rw [((updateQueue_found_parts checkedInStore 1000 false true "q1" completedPatch
      { emptyEntry with id := "q1", status := "check-in", checkInAt := some 0 }
      (by decide)).2.2.1), if_pos (by decide)]
    simp [checkedInStore, emptyStore]

/-- C7 (amended): a failed addQueue changes nothing and returns null; a
failed updateQueue returns null and leaves the queue and pets mirrors
unchanged, and when the independent service-record write also fails the
whole store is unchanged — only that separate record write can still
append to the serviceRecords mirror. -/
theorem failed_writes_leave_memory_unchanged (st : StoreData) (today : String)
    (now : Nat) (rOk : Bool) (id newId : String) (p : QueuePatch) :
    (addQueue st today now false newId p).1 = st ∧
    (addQueue st today now false newId p).2 = none ∧
    (updateQueue st now false false id p).1 = st ∧
    (updateQueue st now false false id p).2 = none ∧
    (updateQueue st now false rOk id p).1.queue = st.queue ∧
    (updateQueue st now false rOk id p).1.pets = st.pets := by
  refine ⟨rfl, rfl, ?_, ?_, ?_, ?_⟩
  · cases hf : st.queue.find? (fun q => q.id == id) with
    | none => rw [updateQueue_not_found st now false false id p hf]
    | some q0 =>
      unfold updateQueue createServiceRecord
      rw [hf]
      simp
  · cases hf : st.queue.find? (fun q => q.id == id) with
    | none => rw [updateQueue_not_found st now false false id p hf]
    | some q0 =>
      rw [(updateQueue_found_parts st now false false id p q0 hf).2.2.2]
      simp
  · cases hf : st.queue.find? (fun q => q.id == id) with
    | none => rw [updateQueue_not_found st now false rOk id p hf]
    | some q0 =>
      rw [(updateQueue_found_parts st now false rOk id p q0 hf).1]
      simp
  · cases hf : st.queue.find? (fun q => q.id == id) with
    | none => rw [updateQueue_not_found st now false rOk id p hf]
    | some q0 =>
      exact (updateQueue_found_parts st now false rOk id p q0 hf).2.1

/-! ## C8: editing an entry preserves bookingAt and status -/

/-- C8: the edit branch of saveQueue (validations passing) recomputes the
entry's duration from the main services and its estimated end time from
the selected slot, while the stored entry keeps its bookingAt and status
(the patch deletes both fields before calling updateQueue). -/
theorem saveQueueEdit_preserves_booking (st : StoreData) (form : QueueForm)
    (now : Nat) (id : String) (q : QueueEntry)
    (hfind : st.queue.find? (fun e => e.id == id) = some q)
    (hterm1 : q.status ≠ "completed") (hterm2 : q.status ≠ "cancelled")
    (hcu : form.customerId ≠ "") (hpe : form.petId ≠ "")
    (hsv : ((calculateServiceDuration st.settings form.serviceTypes).2 ++
      form.addons).isEmpty = false)
    (hda : form.date ≠ "") :
    ∃ q2, (saveQueueEdit st form now id true true).1.queue.find?
        (fun e => e.id == id) = some q2 ∧
      q2.bookingAt = q.bookingAt ∧ q2.status = q.status ∧
      q2.duration = some (calculateServiceDuration st.settings form.serviceTypes).1 ∧
      q2.estimatedEndTime = form.timeSlot.map
        (fun t => calculateEndTime t (calculateServiceDuration st.settings form.serviceTypes).1) := by
  have hcu' : (form.customerId == "") = false := beq_eq_false_iff_ne.mpr hcu
  have hpe' : (form.petId == "") = false := beq_eq_false_iff_ne.mpr hpe
  have hda' : (form.date == "") = false := beq_eq_false_iff_ne.mpr hda
  have heq : saveQueueEdit st form now id true true =
      updateQueue st now true true id (saveQueueEditPatch st.settings form now) := by
    unfold saveQueueEdit
    simp [hcu', hpe', hsv, hda']
  have hs0 : (saveQueueEditPatch st.settings form now).status = none := rfl
  have htsU : timestampUpdates q (saveQueueEditPatch st.settings form now) now = {} := by
    unfold timestampUpdates
    rw [hs0]
    have e1 : ((none : Option String) == some "deposit") = false := by decide
    have e2 : ((none : Option String) == some "check-in") = false := by decide
    have e3 : ((none : Option String) == some "completed") = false := by decide
    simp [e1, e2, e3]
  have hmerge : patchMerge (saveQueueEditPatch st.settings form now)
      (timestampUpdates q (saveQueueEditPatch st.settings form now) now) =
      saveQueueEditPatch st.settings form now := by
    rw [htsU]
    rfl
  refine ⟨mergePatch q (saveQueueEditPatch st.settings form now), ?_, ?_, ?_, ?_, ?_⟩
  · rw [heq, (updateQueue_found_parts st now true true id
      (saveQueueEditPatch st.settings form now) q hfind).1, if_pos rfl, hmerge]
    obtain ⟨l₁, l₂, hdecomp, hall, hupd⟩ :=
      updateFirst_decomp (fun e => e.id == id)
        (fun e => mergePatch e (saveQueueEditPatch st.settings form now))
        st.queue q hfind
    rw [hupd]
    apply find?_append_cons _ _ _ _ hall
    have hpq := List.find?_some hfind
    have hidmerge : (mergePatch q (saveQueueEditPatch st.settings form now)).id = q.id := rfl
    rw [hidmerge]
    exact hpq
  · rfl
  · rfl
  · rfl
  · show oow (saveQueueEditPatch st.settings form now).estimatedEndTime q.estimatedEndTime =
      form.timeSlot.map
        (fun t => calculateEndTime t (calculateServiceDuration st.settings form.serviceTypes).1)
    have he : (saveQueueEditPatch st.settings form now).estimatedEndTime =
        some (match form.timeSlot with
          | some t => some (calculateEndTime t (calculateServiceDuration st.settings form.serviceTypes).1)
          | none => none) := rfl
    rw [he]
    cases form.timeSlot <;> rfl

/-- C8 witness: editing the sample entry leaves its bookingAt and status
as stored. -/
theorem saveQueueEdit_preserves_booking_witness :
    editStore.queue.find? (fun e => e.id == "q1") =
      some { emptyEntry with id := "q1", status := "deposit", bookingAt := some 7 } ∧
    (((saveQueueEdit editStore sampleForm 1000 "q1" true true).1.queue.find?
        (fun e => e.id == "q1")).map (fun e => (e.bookingAt, e.status))) =
      some (some 7, "deposit") := by
  refine ⟨by decide, ?_⟩
  obtain ⟨q2, hfind2, hb, hst, -, -⟩ := saveQueueEdit_preserves_booking editStore sampleForm
    1000 "q1" ({ emptyEntry with id := "q1", status := "deposit", bookingAt := some 7 })
    (by decide) (by decide) (by decide) (by decide) (by decide) (by decide) (by decide)
  rw [hfind2, Option.map_some', hb, hst]

/-! ## C10: the addQueue input spread -/

/-- C10 counterexample: queueNumber is listed BEFORE the input spread in
the newQueue literal, so an input object that carries queueNumber
overrides the number addQueue computed: with an empty store the computed
number would be 1, yet the stored entry carries the input's 99. -/
theorem addQueue_input_overrides_queueNumber :
    ((addQueue emptyStore "2025-01-01" 0 true "id9" numberedPatch).2.map
      (fun e => e.queueNumber)) = some 99 ∧
    (emptyStore.queue.filter (fun q => q.date == "2025-01-01")).length + 1 = 1 := by
  decide

/-- C10 (amended): every field present in the addQueue input overrides
the computed value — queueNumber INCLUDED — and only createdAt is always
taken from addQueue's own computation; the computed queueNumber, status
'booking', bookingAt and duration are used exactly when the input lacks
the field; in particular a booking created through the UI save path
persists the caller-supplied duration computed from the main services
only. -/
theorem addQueue_spread_overrides (st : StoreData) (today : String) (now : Nat)
    (newId : String) (item : QueuePatch) :
    (∃ e, (addQueue st today now true newId item).2 = some e ∧
      (addQueue st today now true newId item).1.queue = st.queue ++ [e] ∧
      e.createdAt = some now ∧
      (∀ n, item.queueNumber = some n → e.queueNumber = n) ∧
      (item.queueNumber = none → e.queueNumber =
        (st.queue.filter (fun q => q.date == jsOrStr item.date today)).length + 1) ∧
      (∀ v, item.status = some v → e.status = v) ∧
      (item.status = none → e.status = "booking") ∧
      (∀ v, item.bookingAt = some v → e.bookingAt = some v) ∧
      (item.bookingAt = none → e.bookingAt = some now) ∧
      (∀ v, item.duration = some v → e.duration = some v) ∧
      (∀ v, item.estimatedEndTime = some v → e.estimatedEndTime = v)) ∧
    (∀ (s2 : StoreData) (form : QueueForm) (t2 : String) (n2 : Nat) (nid : String),
      ((addQueue s2 t2 n2 true nid (saveQueueData s2.settings form n2)).2.map
        (fun e2 => e2.duration)) =
        some (some (calculateServiceDuration s2.settings form.serviceTypes).1)) := by
  constructor
  · refine ⟨_, rfl, rfl, rfl, ?_, ?_, ?_, ?_, ?_, ?_, ?_, ?_⟩
    · intro n hn
      show ow ({ item with
        serviceType := (calculateServiceDurationOpt st.settings item.serviceType).2 } :
          QueuePatch).queueNumber _ = n
      simp [ow, hn]
    · intro hn
      show ow ({ item with
        serviceType := (calculateServiceDurationOpt st.settings item.serviceType).2 } :
          QueuePatch).queueNumber _ = _
      simp [ow, hn]
    · intro v hv
      show ow ({ item with
        serviceType := (calculateServiceDurationOpt st.settings item.serviceType).2 } :
          QueuePatch).status _ = v
      simp [ow, hv]
    · intro hv
      show ow ({ item with
        serviceType := (calculateServiceDurationOpt st.settings item.serviceType).2 } :
          QueuePatch).status _ = _
      simp [ow, hv]
    · intro v hv
      show ows ({ item with
        serviceType := (calculateServiceDurationOpt st.settings item.serviceType).2 } :
          QueuePatch).bookingAt _ = some v
      simp [ows, hv]
    · intro hv
      show ows ({ item with
        serviceType := (calculateServiceDurationOpt st.settings item.serviceType).2 } :
          QueuePatch).bookingAt _ = some now
      simp [ows, hv]
    · intro v hv
      show ows ({ item with
        serviceType := (calculateServiceDurationOpt st.settings item.serviceType).2 } :
          QueuePatch).duration _ = some v
      simp [ows, hv]
    · intro v hv
      show oow ({ item with
        serviceType := (calculateServiceDurationOpt st.settings item.serviceType).2 } :
          QueuePatch).estimatedEndTime _ = v
      simp [oow, hv]
  · intro s2 form t2 n2 nid
    rfl
